import Mathlib

/-!
Shallow embedding of the Discord gateway protocol core (the sans-I/O
`GatewayContext` state machine) from `src/proto/mod.rs`, `src/proto/config.rs`
and `src/error.rs`, together with theorems settling the claims about it.

Machine integers (`u16`, `u64`) are modelled as `Nat`: the code performs no
arithmetic on them apart from literal comparison, so overflow never matters.
Rust mutation is modelled by explicit state passing: each `&mut self` method
becomes a function `GatewayContext → GatewayContext`.
-/

/-- Modelled from the spec: the crate-root constant `LIB_NAME` (the library
name used for the identify properties strings) is referenced by
`src/proto/mod.rs` and `src/proto/config.rs` via `use crate::LIB_NAME` but its
defining file is not among the provided sources. No claim depends on its
value; it is fixed here as the crate name. -/
def LIB_NAME : String := "discord"

/-- `std::env::consts::OS`, the build-host operating system string. No claim
depends on its value. -/
def OS : String := "linux"

/-- `error.rs`: `CloseCode`, the taxonomy of gateway close codes.
`Other` carries the raw `u16` for any unmapped code. -/
inductive CloseCode
  | UnknownError
  | UnknownOpcode
  | DecodeError
  | NotAuthenticated
  | AuthenticationFailed
  | AlreadyAuthenticated
  | InvalidSeq
  | RateLimited
  | SessionTimedOut
  | InvalidShard
  | ShardingRequired
  | InvalidAPIVersion
  | InvalidIntents
  | DisallowedIntents
  | Other (code : Nat)
deriving DecidableEq

/-- `error.rs`: `impl From<u16> for CloseCode`. The argument is the raw
close code received on the socket (a `u16`). -/
def CloseCode.fromU16 (v : Nat) : CloseCode :=
  match v with
  | 4000 => CloseCode.UnknownError
  | 4001 => CloseCode.UnknownOpcode
  | 4003 => CloseCode.DecodeError
  | 4004 => CloseCode.NotAuthenticated
  | 4005 => CloseCode.AuthenticationFailed
  | 4006 => CloseCode.AlreadyAuthenticated
  | 4007 => CloseCode.InvalidSeq
  | 4008 => CloseCode.RateLimited
  | 4009 => CloseCode.SessionTimedOut
  | 4010 => CloseCode.InvalidShard
  | 4011 => CloseCode.ShardingRequired
  | 4012 => CloseCode.InvalidAPIVersion
  | 4013 => CloseCode.InvalidIntents
  | 4014 => CloseCode.DisallowedIntents
  | v => CloseCode.Other v

/-- `error.rs`: `CloseCode::is_recoverable`. -/
def CloseCode.is_recoverable : CloseCode → Bool
  | CloseCode.UnknownError
  | CloseCode.UnknownOpcode
  | CloseCode.DecodeError
  | CloseCode.NotAuthenticated
  | CloseCode.AlreadyAuthenticated
  | CloseCode.InvalidSeq
  | CloseCode.RateLimited
  | CloseCode.SessionTimedOut => true
  | CloseCode.Other code => code < 4000
  | _ => false

/-- `twilight_model` `IdentifyProperties`: the OS/browser/device strings sent
with an Identify. `src/proto/mod.rs` builds it with five arguments
(browser, device, os, referrer, referring domain);
`src/proto/config.rs` supplies only the first three, leaving the referrer
strings empty. -/
structure IdentifyProperties where
  browser : String
  device : String
  os : String
  referrer : String
  referring_domain : String
deriving DecidableEq

/-- `twilight_model` `UpdatePresencePayload`. The protocol core never inspects
its fields (it only clones the value from the config into the Identify), so
they are elided. -/
structure UpdatePresencePayload where
  mk ::
deriving DecidableEq

/-- `twilight_model` `RequestGuildMembers` payload; never constructed by the
core, fields elided. -/
structure RequestGuildMembers where
  mk ::
deriving DecidableEq

/-- `twilight_model` `UpdatePresence` payload; never constructed by the core,
fields elided. -/
structure UpdatePresence where
  mk ::
deriving DecidableEq

/-- `twilight_model` `UpdateVoiceState` payload; never constructed by the
core, fields elided. -/
structure UpdateVoiceState where
  mk ::
deriving DecidableEq

/-- `twilight_model` `IdentifyInfo`, the payload of an Identify command.
`intents` is the `u64` bitfield, `shard` the `[id, total]` pair. -/
structure IdentifyInfo where
  compress : Bool
  token : String
  shard : Option (Nat × Nat)
  intents : Nat
  large_threshold : Nat
  presence : Option UpdatePresencePayload
  properties : IdentifyProperties
deriving DecidableEq

/-- `src/proto/config.rs`: `Config`. `intents` is the `u64` bitfield of
`twilight_model` `Intents`; `shard` is the `[u64; 2]` pair. -/
structure Config where
  gateway_url : Option String
  identify_properties : IdentifyProperties
  intents : Nat
  large_threshold : Nat
  presence : Option UpdatePresencePayload
  shard : Nat × Nat
  token : String
deriving DecidableEq

/-- `src/proto/config.rs`: `Config::new(token, intents)`. -/
def Config.new (token : String) (intents : Nat) : Config :=
  { gateway_url := none
    identify_properties :=
      { browser := LIB_NAME, device := LIB_NAME, os := OS
        referrer := "", referring_domain := "" }
    intents := intents
    large_threshold := 50
    presence := none
    shard := (0, 1)
    token := token }

/-- `src/proto/config.rs`: the builder method `Config::large_threshold`
(renamed: in Lean the field projection already carries that name). -/
def Config.set_large_threshold (c : Config) (large_threshold : Nat) : Config :=
  { c with large_threshold := large_threshold }

/-- `src/proto/config.rs`: the builder method `Config::identify_properties`
(renamed: in Lean the field projection already carries that name). -/
def Config.set_identify_properties (c : Config) (props : IdentifyProperties) : Config :=
  { c with identify_properties := props }

/-- `src/proto/config.rs`: the builder method `Config::shard`
(renamed: in Lean the field projection already carries that name). -/
def Config.set_shard (c : Config) (shard : Nat × Nat) : Config :=
  { c with shard := shard }

/-- `src/proto/config.rs`: the builder method `Config::presence`
(renamed: in Lean the field projection already carries that name). -/
def Config.set_presence (c : Config) (presence : UpdatePresencePayload) : Config :=
  { c with presence := some presence }

/-- `twilight_model` `Ready` dispatch payload. Only `session_id` is read by
the state machine; the remaining fields (guilds, version, application, user,
shard) are only logged and are elided. -/
structure Ready where
  session_id : String
deriving DecidableEq

/-- `twilight_model` `DispatchEvent`: the core matches only `Ready` and
`Resumed`; the many remaining variants are collapsed into `Other`, tagged by
a kind number, since the core treats them all alike (the `_ => {}` arm). -/
inductive DispatchEvent
  | Ready (ready : Ready)
  | Resumed
  | Other (kind : Nat)
deriving DecidableEq

/-- `twilight_model` `GatewayEvent`, the incoming frames handled by
`GatewayContext::recv`. `Hello` carries the heartbeat interval, `Dispatch` a
sequence number and payload. -/
inductive GatewayEvent
  | Dispatch (seq : Nat) (event : DispatchEvent)
  | Heartbeat (seq : Nat)
  | HeartbeatAck
  | Hello (heartbeat_interval : Nat)
  | InvalidateSession (resumable : Bool)
  | Reconnect
deriving DecidableEq

/-- `src/proto/mod.rs`: `GatewayCommand`, the outbound commands. The
`twilight_model` envelopes (`Heartbeat { d }`, `Resume { d: ResumeInfo }`,
`Identify { d: IdentifyInfo }`) add only a constant opcode discriminator, so
the payload fields are carried directly. `Resume` carries
(seq, session id, token) in the order of `Resume::new`. The misspelled
`RequestGulidMembers` variant name is the source spelling. -/
inductive GatewayCommand
  | Identify (info : IdentifyInfo)
  | Heartbeat (seq : Nat)
  | RequestGulidMembers (req : RequestGuildMembers)
  | Resume (seq : Nat) (session_id : String) (token : String)
  | UpdatePresence (payload : UpdatePresence)
  | UpdateVoiceState (payload : UpdateVoiceState)
deriving DecidableEq

/-- `src/proto/mod.rs`: `State`, the connection state of the context. -/
inductive State
  | Closed
  | Identify
  | Ready
  | Reconnect
  | Resume
  | Replaying
  | Failed (code : CloseCode)
deriving DecidableEq

/-- `src/proto/mod.rs`: `GatewayContext`. The `recv_queue` holds the
dispatched events surfaced to the application (`Event::from` on a dispatch
event is an identity embedding for the core); both queues are `VecDeque`,
modelled as lists with `push_back` appending on the right. -/
structure GatewayContext where
  config : Config
  seq : Nat
  session_id : String
  heartbeat_interval : Nat
  recv_queue : List DispatchEvent
  send_queue : List GatewayCommand
  state : State
  socket_closed : Bool
deriving DecidableEq

/-- `src/proto/mod.rs`: `GatewayContext::new(config)`. -/
def GatewayContext.new (config : Config) : GatewayContext :=
  { config := config
    seq := 0
    heartbeat_interval := 0
    recv_queue := []
    send_queue := []
    state := State.Closed
    session_id := ""
    socket_closed := false }

/-- `src/proto/mod.rs`: `GatewayContext::enqueue_command`. -/
def GatewayContext.enqueue_command (ctx : GatewayContext) (cmd : GatewayCommand) : GatewayContext :=
  { ctx with send_queue := ctx.send_queue ++ [cmd] }

/-- `src/proto/mod.rs`: `GatewayContext::queue_heartbeat`. -/
def GatewayContext.queue_heartbeat (ctx : GatewayContext) : GatewayContext :=
  { ctx with send_queue := ctx.send_queue ++ [GatewayCommand.Heartbeat ctx.seq] }

/-- `src/proto/mod.rs`: `GatewayContext::recv_close_code(code)`. -/
def GatewayContext.recv_close_code (ctx : GatewayContext) (code : Nat) : GatewayContext :=
  let c := CloseCode.fromU16 code
  { ctx with
    socket_closed := true
    state := if c.is_recoverable then State.Resume else State.Failed c }

/-- `src/proto/mod.rs`: `GatewayContext::recv(event)`. The method first
clears `socket_closed`, then dispatches on the event. -/
def GatewayContext.recv (ctx : GatewayContext) (event : GatewayEvent) : GatewayContext :=
  let ctx := { ctx with socket_closed := false }
  match event with
  | GatewayEvent.InvalidateSession resumable =>
    { ctx with state := if resumable then State.Resume else State.Reconnect }
  | GatewayEvent.Reconnect =>
    { ctx with state := State.Resume }
  | GatewayEvent.Heartbeat _ =>
    ctx.queue_heartbeat
  | GatewayEvent.HeartbeatAck =>
    ctx
  | GatewayEvent.Hello heartbeat_interval =>
    let ctx := { ctx with heartbeat_interval := heartbeat_interval }
    match ctx.state with
    | State.Resume | State.Ready =>
      { ctx with
        send_queue := ctx.send_queue ++
          [GatewayCommand.Resume ctx.seq ctx.session_id ctx.config.token]
        state := State.Replaying }
    | _ =>
      { ctx with
        send_queue := ctx.send_queue ++
          [GatewayCommand.Identify
            { compress := false
              token := ctx.config.token
              shard := some ctx.config.shard
              intents := ctx.config.intents
              large_threshold := 100000
              presence := ctx.config.presence
              properties :=
                { browser := LIB_NAME, device := LIB_NAME, os := OS
                  referrer := "", referring_domain := "" } }]
        state := State.Identify }
  | GatewayEvent.Dispatch seq event =>
    let ctx :=
      match event with
      | DispatchEvent.Ready ready =>
        { ctx with session_id := ready.session_id, state := State.Ready }
      | DispatchEvent.Resumed =>
        { ctx with state := State.Ready }
      | _ => ctx
    { ctx with seq := seq, recv_queue := ctx.recv_queue ++ [event] }

/-- `src/proto/mod.rs`: `GatewayContext::event`, popping the oldest
dispatched event. -/
def GatewayContext.event (ctx : GatewayContext) : Option DispatchEvent × GatewayContext :=
  match ctx.recv_queue with
  | [] => (none, ctx)
  | e :: rest => (some e, { ctx with recv_queue := rest })

/-- `src/proto/mod.rs`: `GatewayContext::send`, popping the oldest pending
command. -/
def GatewayContext.send (ctx : GatewayContext) : Option GatewayCommand × GatewayContext :=
  match ctx.send_queue with
  | [] => (none, ctx)
  | c :: rest => (some c, { ctx with send_queue := rest })

/-- `src/proto/mod.rs`: `GatewayContext::should_reconnect`. -/
def GatewayContext.should_reconnect (ctx : GatewayContext) : Bool :=
  match ctx.state with
  | State.Resume | State.Reconnect => true
  | State.Failed _ => false
  | _ => ctx.socket_closed

/-- `src/proto/mod.rs`: `GatewayContext::is_closed`. -/
def GatewayContext.is_closed (ctx : GatewayContext) : Bool :=
  match ctx.state with
  | State.Closed | State.Reconnect | State.Resume => true
  | _ => false

/-- `src/proto/mod.rs`: `GatewayContext::failed`. -/
def GatewayContext.failed (ctx : GatewayContext) : Option CloseCode :=
  match ctx.state with
  | State.Failed code => some code
  | _ => none

/-- One input to the context, for trace properties: a received gateway
event (`recv`), a socket close code (`recv_close_code`), or a heartbeat tick
(`queue_heartbeat`). -/
inductive Input
  | ev (event : GatewayEvent)
  | close (code : Nat)
  | heartbeat
deriving DecidableEq

/-- Apply one input to the context. -/
def Input.apply : Input → GatewayContext → GatewayContext
  | Input.ev e, ctx => ctx.recv e
  | Input.close c, ctx => ctx.recv_close_code c
  | Input.heartbeat, ctx => ctx.queue_heartbeat

/-- All states visited while applying a list of inputs in order, starting
from (and including) `ctx`. -/
def traceStates (ctx : GatewayContext) : List Input → List GatewayContext
  | [] => [ctx]
  | i :: is => ctx :: traceStates (i.apply ctx) is

/-- The sequence numbers carried by the `Dispatch` inputs of a trace, in
order. -/
def dispatchSeqs : List Input → List Nat
  | [] => []
  | Input.ev (GatewayEvent.Dispatch s _) :: is => s :: dispatchSeqs is
  | _ :: is => dispatchSeqs is

/-- Example context that has reached `Ready` with a session id and a nonzero
sequence number, as after the fresh-connection scenario. -/
def ctxReadyEx : GatewayContext :=
  { GatewayContext.new (Config.new "TOKEN" 0) with
    state := State.Ready, session_id := "S", seq := 7 }

/-- Example context in a `Failed` state, reached genuinely through
`recv_close_code 4010` (InvalidShard, not recoverable). -/
def ctxFailedEx : GatewayContext :=
  (GatewayContext.new (Config.new "TOKEN" 0)).recv_close_code 4010

/-- C1: the claim says `recv_close_code(4004)` moves any context to
`Failed(AuthenticationFailed)`, with `failed() = Some(AuthenticationFailed)`
and `should_reconnect() = false`. The code instead maps 4004 to
`NotAuthenticated` (the `From<u16>` impl in `error.rs` is missing the 4002
arm, shifting 4003..4006 by one against the Discord close-code table its own
doc comment links), which is recoverable, so the state becomes `Resume`,
`failed()` is `none` and `should_reconnect()` is `true`. This theorem
evaluates the code at the failing input 4004. -/
theorem claim_C1_recv_close_4004 (ctx : GatewayContext) :
    CloseCode.fromU16 4004 = CloseCode.NotAuthenticated ∧
    (ctx.recv_close_code 4004).state = State.Resume ∧
    (ctx.recv_close_code 4004).failed = none ∧
    (ctx.recv_close_code 4004).should_reconnect = true :=
  ⟨rfl, rfl, rfl, rfl⟩

/-- C2: the claim says every code in {4000, 4001, 4002, 4003, 4005, 4007,
4008, 4009} and every non-4xxx code moves a non-`Failed` context to `Resume`.
The code instead maps 4002 to `Other 4002` (not recoverable, since the
missing-arm fallthrough checks `code < 4000`) and 4005 to
`AuthenticationFailed` (not recoverable), so both move the context to
`Failed`. This theorem evaluates the code at the failing inputs 4002 and
4005, and also records that the remaining codes of the claimed set do reach
`Resume`. -/
theorem claim_C2_recoverable_set (ctx : GatewayContext) :
    (ctx.recv_close_code 4002).state = State.Failed (CloseCode.Other 4002) ∧
    (ctx.recv_close_code 4005).state = State.Failed CloseCode.AuthenticationFailed ∧
    (ctx.recv_close_code 4000).state = State.Resume ∧
    (ctx.recv_close_code 4001).state = State.Resume ∧
    (ctx.recv_close_code 4003).state = State.Resume ∧
    (ctx.recv_close_code 4007).state = State.Resume ∧
    (ctx.recv_close_code 4008).state = State.Resume ∧
    (ctx.recv_close_code 4009).state = State.Resume ∧
    (ctx.recv_close_code 1000).state = State.Resume ∧
    (ctx.recv_close_code 1001).state = State.Resume ∧
    (ctx.recv_close_code 1006).state = State.Resume :=
  ⟨rfl, rfl, rfl, rfl, rfl, rfl, rfl, rfl, rfl, rfl, rfl⟩

/-- C8: `queue_heartbeat()` appends exactly one `Heartbeat(self.seq)` to the
send queue and changes nothing else (full record equality); receiving a
server `Heartbeat` event in any state leaves the state unchanged and appends
exactly one `Heartbeat(self.seq)` to the send queue. -/
theorem claim_C8_queue_heartbeat (ctx : GatewayContext) (n : Nat) :
    ctx.queue_heartbeat =
      { ctx with send_queue := ctx.send_queue ++ [GatewayCommand.Heartbeat ctx.seq] } ∧
    (ctx.recv (GatewayEvent.Heartbeat n)).state = ctx.state ∧
    (ctx.recv (GatewayEvent.Heartbeat n)).send_queue =
      ctx.send_queue ++ [GatewayCommand.Heartbeat ctx.seq] :=
  ⟨rfl, rfl, rfl⟩

/-- C10: `is_closed()` returns true exactly in the `Closed`, `Reconnect` and
`Resume` states, and hence false in `Identify`, `Ready`, `Replaying` and any
`Failed` state. -/
theorem claim_C10_is_closed (ctx : GatewayContext) :
    ctx.is_closed = true ↔
      (ctx.state = State.Closed ∨ ctx.state = State.Reconnect ∨ ctx.state = State.Resume) := by
  cases h : ctx.state <;> simp [GatewayContext.is_closed, h]

/-- C9: a recoverable close code (1000) received by a fresh context still in
`Closed` moves it to `Resume` while `session_id` is still empty and `seq` is
still 0, so the next `Hello` enqueues a `Resume` command with empty session
id and sequence number 0 instead of an `Identify`. -/
theorem claim_C9_premature_resume (cfg : Config) (h : Nat) :
    ((GatewayContext.new cfg).recv_close_code 1000).state = State.Resume ∧
    ((GatewayContext.new cfg).recv_close_code 1000).session_id = "" ∧
    ((GatewayContext.new cfg).recv_close_code 1000).seq = 0 ∧
    (((GatewayContext.new cfg).recv_close_code 1000).recv (GatewayEvent.Hello h)).state
      = State.Replaying ∧
    (((GatewayContext.new cfg).recv_close_code 1000).recv (GatewayEvent.Hello h)).send_queue
      = [GatewayCommand.Resume 0 "" cfg.token] :=
  ⟨rfl, rfl, rfl, rfl, rfl⟩

/-- C3: a `Hello(h)` received in state `Resume` or `Ready` sets the heartbeat
interval to `h`, moves the state to `Replaying`, and appends exactly one
`Resume` command carrying the current seq, session id and configured token. -/
theorem claim_C3_hello_resume (ctx : GatewayContext) (h : Nat)
    (hst : ctx.state = State.Resume ∨ ctx.state = State.Ready) :
    (ctx.recv (GatewayEvent.Hello h)).heartbeat_interval = h ∧
    (ctx.recv (GatewayEvent.Hello h)).state = State.Replaying ∧
    (ctx.recv (GatewayEvent.Hello h)).send_queue =
      ctx.send_queue ++
        [GatewayCommand.Resume ctx.seq ctx.session_id ctx.config.token] := by
  rcases hst with hst | hst <;> simp [GatewayContext.recv, hst]

/-- C3 witness: the theorem applied to a concrete `Ready` context. -/
theorem claim_C3_hello_resume_witness :
    (ctxReadyEx.state = State.Resume ∨ ctxReadyEx.state = State.Ready) ∧
    ((ctxReadyEx.recv (GatewayEvent.Hello 15)).heartbeat_interval = 15 ∧
    (ctxReadyEx.recv (GatewayEvent.Hello 15)).state = State.Replaying ∧
    (ctxReadyEx.recv (GatewayEvent.Hello 15)).send_queue =
      ctxReadyEx.send_queue ++
        [GatewayCommand.Resume ctxReadyEx.seq ctxReadyEx.session_id
          ctxReadyEx.config.token]) :=
  ⟨Or.inr rfl, claim_C3_hello_resume ctxReadyEx 15 (Or.inr rfl)⟩

/-- Config with non-default `large_threshold` and `identify_properties`, set
through the source builder methods. -/
def cfgCustomEx : Config :=
  ((Config.new "TOKEN" 512).set_large_threshold 250).set_identify_properties
    { browser := "mybrowser", device := "mydevice", os := "myos"
      referrer := "r", referring_domain := "rd" }

/-- C4 counterexample: the claim says the `Identify` enqueued by a `Hello` in
a non-`Resume`/`Ready` state carries the configured `large_threshold` and
`identify_properties`. For a config with `large_threshold = 250` and custom
identify properties, the enqueued payload instead carries the hardcoded
`large_threshold = 100000` and properties freshly built from the library name
and host OS, both differing from the configured values. -/
theorem claim_C4_counterexample :
    ((GatewayContext.new cfgCustomEx).recv (GatewayEvent.Hello 10)).send_queue =
      [GatewayCommand.Identify
        { compress := false
          token := "TOKEN"
          shard := some (0, 1)
          intents := 512
          large_threshold := 100000
          presence := none
          properties :=
            { browser := LIB_NAME, device := LIB_NAME, os := OS
              referrer := "", referring_domain := "" } }] ∧
    cfgCustomEx.large_threshold = 250 ∧
    (100000 : Nat) ≠ cfgCustomEx.large_threshold ∧
    cfgCustomEx.identify_properties =
      { browser := "mybrowser", device := "mydevice", os := "myos"
        referrer := "r", referring_domain := "rd" } ∧
    IdentifyProperties.mk LIB_NAME LIB_NAME OS "" "" ≠ cfgCustomEx.identify_properties := by
  refine ⟨rfl, rfl, by decide, rfl, by decide⟩

/-- C4 as amended: a `Hello(h)` received in a state that is neither `Resume`
nor `Ready` sets the heartbeat interval to `h`, moves the state to
`Identify`, and appends exactly one `Identify` command carrying the
configured token, shard pair, intents bitfield and optional presence, with
`compress = false`, but with `large_threshold` hardcoded to 100000 and
identify properties freshly built from the library name and host OS — the
config fields `large_threshold` and `identify_properties` are ignored. -/
theorem claim_C4_hello_identify (ctx : GatewayContext) (h : Nat)
    (h1 : ctx.state ≠ State.Resume) (h2 : ctx.state ≠ State.Ready) :
    (ctx.recv (GatewayEvent.Hello h)).heartbeat_interval = h ∧
    (ctx.recv (GatewayEvent.Hello h)).state = State.Identify ∧
    (ctx.recv (GatewayEvent.Hello h)).send_queue =
      ctx.send_queue ++
        [GatewayCommand.Identify
          { compress := false
            token := ctx.config.token
            shard := some ctx.config.shard
            intents := ctx.config.intents
            large_threshold := 100000
            presence := ctx.config.presence
            properties :=
              { browser := LIB_NAME, device := LIB_NAME, os := OS
                referrer := "", referring_domain := "" } }] := by
  cases hst : ctx.state <;>
    simp [hst] at h1 h2 ⊢ <;>
    simp [GatewayContext.recv, hst]

/-- C4 witness: the amended theorem applied to a fresh context (state
`Closed`) with the custom config. -/
theorem claim_C4_hello_identify_witness :
    ((GatewayContext.new cfgCustomEx).state ≠ State.Resume) ∧
    ((GatewayContext.new cfgCustomEx).state ≠ State.Ready) ∧
    (((GatewayContext.new cfgCustomEx).recv (GatewayEvent.Hello 10)).heartbeat_interval = 10 ∧
    ((GatewayContext.new cfgCustomEx).recv (GatewayEvent.Hello 10)).state = State.Identify ∧
    ((GatewayContext.new cfgCustomEx).recv (GatewayEvent.Hello 10)).send_queue =
      (GatewayContext.new cfgCustomEx).send_queue ++
        [GatewayCommand.Identify
          { compress := false
            token := (GatewayContext.new cfgCustomEx).config.token
            shard := some (GatewayContext.new cfgCustomEx).config.shard
            intents := (GatewayContext.new cfgCustomEx).config.intents
            large_threshold := 100000
            presence := (GatewayContext.new cfgCustomEx).config.presence
            properties :=
              { browser := LIB_NAME, device := LIB_NAME, os := OS
                referrer := "", referring_domain := "" } }]) :=
  ⟨by decide, by decide,
    claim_C4_hello_identify (GatewayContext.new cfgCustomEx) 10 (by decide) (by decide)⟩

/-- C7 counterexample: the claim says constructing a context from a config
with an empty token fails and that `new` never returns a context holding an
empty token. The source `GatewayContext::new` contains no check and no
fallible path: on the empty-token config it returns an ordinary context that
holds the empty token, in state `Closed` with empty queues. -/
theorem claim_C7_counterexample :
    GatewayContext.new (Config.new "" 0) =
      { config := Config.new "" 0, seq := 0, session_id := ""
        heartbeat_interval := 0, recv_queue := [], send_queue := []
        state := State.Closed, socket_closed := false } ∧
    (GatewayContext.new (Config.new "" 0)).config.token = "" :=
  ⟨rfl, rfl⟩

/-- C7 as amended: `new` performs no token validation at all: for every
config, the empty-token config included, it returns the context holding that
config unchanged, with state `Closed`, both queues empty, `seq = 0`, empty
session id and heartbeat interval 0. -/
theorem claim_C7_new_unchecked (cfg : Config) :
    GatewayContext.new cfg =
      { config := cfg, seq := 0, session_id := "", heartbeat_interval := 0
        recv_queue := [], send_queue := [], state := State.Closed
        socket_closed := false } :=
  rfl

/-- C6 counterexample: the claim says `Failed` is absorbing under `recv`. From
the genuinely reached state `Failed(InvalidShard)`, receiving
`InvalidateSession(true)` moves the state to `Resume`, which differs from
`Failed(InvalidShard)`. -/
theorem claim_C6_counterexample :
    ctxFailedEx.state = State.Failed CloseCode.InvalidShard ∧
    (ctxFailedEx.recv (GatewayEvent.InvalidateSession true)).state = State.Resume ∧
    State.Resume ≠ State.Failed CloseCode.InvalidShard := by
  refine ⟨rfl, rfl, by decide⟩

/-- C6 as amended: `Failed` is not absorbing. From `Failed(c)`, receiving a
server `Heartbeat`, a `HeartbeatAck`, or a `Dispatch` carrying neither
`Ready` nor `Resumed` leaves the state at `Failed(c)` (only the queues
change), but `InvalidateSession(b)` moves the state to `Resume` or
`Reconnect` according to `b`, `Reconnect` to `Resume`, `Hello` to `Identify`,
and a `Dispatch` carrying `Ready` or `Resumed` to `Ready`. -/
theorem claim_C6_failed_not_absorbing (ctx : GatewayContext) (c : CloseCode)
    (n s k hb : Nat) (b : Bool) (r : Ready)
    (hf : ctx.state = State.Failed c) :
    (ctx.recv (GatewayEvent.Heartbeat n)).state = State.Failed c ∧
    (ctx.recv GatewayEvent.HeartbeatAck).state = State.Failed c ∧
    (ctx.recv (GatewayEvent.Dispatch s (DispatchEvent.Other k))).state = State.Failed c ∧
    (ctx.recv (GatewayEvent.InvalidateSession b)).state =
      (if b then State.Resume else State.Reconnect) ∧
    (ctx.recv GatewayEvent.Reconnect).state = State.Resume ∧
    (ctx.recv (GatewayEvent.Hello hb)).state = State.Identify ∧
    (ctx.recv (GatewayEvent.Dispatch s (DispatchEvent.Ready r))).state = State.Ready ∧
    (ctx.recv (GatewayEvent.Dispatch s DispatchEvent.Resumed)).state = State.Ready := by
  refine ⟨?_, ?_, ?_, ?_, ?_, ?_, ?_, ?_⟩ <;>
    simp [GatewayContext.recv, GatewayContext.queue_heartbeat, hf]

/-- C6 witness: the amended theorem applied to the concrete
`Failed(InvalidShard)` context. -/
theorem claim_C6_failed_not_absorbing_witness :
    ctxFailedEx.state = State.Failed CloseCode.InvalidShard ∧
    ((ctxFailedEx.recv (GatewayEvent.Heartbeat 1)).state =
        State.Failed CloseCode.InvalidShard ∧
    (ctxFailedEx.recv GatewayEvent.HeartbeatAck).state =
        State.Failed CloseCode.InvalidShard ∧
    (ctxFailedEx.recv (GatewayEvent.Dispatch 2 (DispatchEvent.Other 3))).state =
        State.Failed CloseCode.InvalidShard ∧
    (ctxFailedEx.recv (GatewayEvent.InvalidateSession true)).state =
      (if true then State.Resume else State.Reconnect) ∧
    (ctxFailedEx.recv GatewayEvent.Reconnect).state = State.Resume ∧
    (ctxFailedEx.recv (GatewayEvent.Hello 10)).state = State.Identify ∧
    (ctxFailedEx.recv (GatewayEvent.Dispatch 2
        (DispatchEvent.Ready { session_id := "S" }))).state = State.Ready ∧
    (ctxFailedEx.recv (GatewayEvent.Dispatch 2 DispatchEvent.Resumed)).state =
        State.Ready) :=
  ⟨rfl, claim_C6_failed_not_absorbing ctxFailedEx CloseCode.InvalidShard
    1 2 3 10 true { session_id := "S" } rfl⟩

/-- The trace of states always starts with the initial context, so the mapped
seq list has the initial seq at its head. -/
theorem traceStates_map_head (ctx : GatewayContext) (is : List Input) :
    ((traceStates ctx is).map (fun c => c.seq)).head? = some ctx.seq := by
  cases is <;> rfl

/-- Effect of one input on `seq`: a `Dispatch` input overwrites it with the
received sequence number, every other input leaves it unchanged (and
contributes nothing to `dispatchSeqs`). -/
theorem step_shape (i : Input) (ctx : GatewayContext) (is : List Input) :
    ((i.apply ctx).seq = ctx.seq ∧ dispatchSeqs (i :: is) = dispatchSeqs is) ∨
      ∃ s e, i = Input.ev (GatewayEvent.Dispatch s e) ∧ (i.apply ctx).seq = s ∧
        dispatchSeqs (i :: is) = s :: dispatchSeqs is := by
  cases i with
  | ev e =>
    cases e with
    | Dispatch s ev => exact Or.inr ⟨s, ev, rfl, rfl, rfl⟩
    | Heartbeat n => exact Or.inl ⟨rfl, rfl⟩
    | HeartbeatAck => exact Or.inl ⟨rfl, rfl⟩
    | Hello hb =>
      refine Or.inl ⟨?_, rfl⟩
      cases hs : ctx.state <;>
        simp [Input.apply, GatewayContext.recv, hs]
    | InvalidateSession b => exact Or.inl ⟨rfl, rfl⟩
    | Reconnect => exact Or.inl ⟨rfl, rfl⟩
  | close c => exact Or.inl ⟨rfl, rfl⟩
  | heartbeat => exact Or.inl ⟨rfl, rfl⟩

/-- If the dispatched sequence numbers of the inputs, prefixed with the
current seq, are non-decreasing, then the seq values along the whole trace
are non-decreasing. -/
theorem chain_seq_traceStates : ∀ (inputs : List Input) (ctx : GatewayContext),
    List.Chain' (· ≤ ·) (ctx.seq :: dispatchSeqs inputs) →
    List.Chain' (· ≤ ·) ((traceStates ctx inputs).map (fun c => c.seq))
  | [], ctx, _ => by simp [traceStates]
  | i :: is, ctx, h => by
    rw [show (traceStates ctx (i :: is)).map (fun c => c.seq) =
        ctx.seq :: (traceStates (i.apply ctx) is).map (fun c => c.seq) from rfl,
      List.chain'_cons']
    rcases step_shape i ctx is with ⟨hseq, hds⟩ | ⟨s, e, hi, hseq, hds⟩
    · rw [hds] at h
      refine ⟨?_, chain_seq_traceStates is (i.apply ctx) ?_⟩
      · intro y hy
        simp only [traceStates_map_head, Option.mem_def, Option.some.injEq] at hy
        rw [← hy, hseq]
      · rw [hseq]; exact h
    · rw [hds] at h
      refine ⟨?_, chain_seq_traceStates is (i.apply ctx) ?_⟩
      · intro y hy
        simp only [traceStates_map_head, Option.mem_def, Option.some.injEq] at hy
        rw [← hy, hseq]
        exact (List.chain'_cons.mp h).1
      · rw [hseq]
        exact (List.chain'_cons.mp h).2

/-- C5 counterexample: the claim says `seq` is monotonically non-decreasing
over every trace of inputs. The Dispatch arm of `recv` overwrites `seq` with
whatever sequence number the server sent, so a fresh context fed
`Dispatch(5, _)` then `Dispatch(3, _)` has seq values 0, 5, 3 along the
trace, which is not non-decreasing. -/
theorem claim_C5_counterexample :
    (traceStates (GatewayContext.new (Config.new "TOKEN" 0))
        [Input.ev (GatewayEvent.Dispatch 5 (DispatchEvent.Other 0)),
         Input.ev (GatewayEvent.Dispatch 3 (DispatchEvent.Other 1))]).map
        (fun c => c.seq) = [0, 5, 3] ∧
    ¬ List.Chain' (· ≤ ·) ([0, 5, 3] : List Nat) :=
  ⟨rfl, by norm_num [List.chain'_cons, List.chain'_singleton]⟩

/-- C5 as amended: `seq` is overwritten only by `Dispatch` inputs, with the
received sequence number; hence over any trace of inputs (recv events,
close codes, heartbeat ticks) from a fresh context whose Dispatch sequence
numbers arrive in non-decreasing order, `seq` is monotonically
non-decreasing. -/
theorem claim_C5_seq_monotone (cfg : Config) (inputs : List Input)
    (hs : List.Chain' (· ≤ ·) (dispatchSeqs inputs)) :
    List.Chain' (· ≤ ·)
      ((traceStates (GatewayContext.new cfg) inputs).map (fun c => c.seq)) := by
  apply chain_seq_traceStates
  rw [List.chain'_cons']
  refine ⟨fun y _ => Nat.zero_le y, hs⟩

/-- Example input trace with Dispatch sequence numbers arriving in order. -/
def demoInputs : List Input :=
  [Input.ev (GatewayEvent.Hello 10),
   Input.ev (GatewayEvent.Dispatch 1 (DispatchEvent.Ready { session_id := "S" })),
   Input.heartbeat,
   Input.close 1006,
   Input.ev (GatewayEvent.Hello 12),
   Input.ev (GatewayEvent.Dispatch 4 DispatchEvent.Resumed)]

/-- C5 witness: the amended theorem applied to a concrete ordered trace. -/
theorem claim_C5_seq_monotone_witness :
    List.Chain' (· ≤ ·) (dispatchSeqs demoInputs) ∧
    List.Chain' (· ≤ ·)
      ((traceStates (GatewayContext.new (Config.new "DEMO" 0)) demoInputs).map
        (fun c => c.seq)) :=
  ⟨by norm_num [demoInputs, dispatchSeqs, List.chain'_cons, List.chain'_singleton],
    claim_C5_seq_monotone (Config.new "DEMO" 0) demoInputs
      (by norm_num [demoInputs, dispatchSeqs, List.chain'_cons, List.chain'_singleton])⟩
